import Mathlib

/-!
Shallow embedding of `src/python_scripts/plot_resampler.py`.

A file is modelled as the list of its lines, each line a `List Char`
(the script iterates `for line in f`).  The file system is modelled as
`Option (List (List Char))`: `none` is a missing file
(`FileNotFoundError`), `some lines` the file's lines.  Python string
operations (`str.strip`, `str.split`, `str.startswith`, `int`) are
modelled on `List Char` following CPython semantics for ASCII text.
Floating point arithmetic is modelled over `ℝ`; numpy primitives
(`np.hamming`, `np.fft.fft`, `np.fft.fftfreq`, `np.max`) are modelled
following numpy semantics, with `Option` marking the calls that raise
on degenerate input.
-/

/-- Configuration constant `FILENAME = "resampler_output.txt"`. -/
def FILENAME : String := "resampler_output.txt"

/-- Configuration constant `FS_IN = 9.0e6`. -/
noncomputable def FS_IN : ℝ := 9.0e6

/-- Configuration constant `L = 2` (upsample factor, used only for rate labels). -/
def L : ℕ := 2

/-- Configuration constant `M = 3` (downsample factor, used only for rate labels). -/
def M : ℕ := 3

/-- Configuration constant `FS_MID = FS_IN * L = 18 MHz`. -/
noncomputable def FS_MID : ℝ := FS_IN * L

/-- Configuration constant `FS_OUT = FS_MID / M = 6 MHz`. -/
noncomputable def FS_OUT : ℝ := FS_MID / M

/-- Configuration constant `NORM_FACTOR = 30000.0`. -/
noncomputable def NORM_FACTOR : ℝ := 30000.0

/-! ## Python string primitives -/

/-- The whitespace characters removed by `str.strip()` / split on by
`str.split()` (the ASCII ones; unicode whitespace is out of scope for
this ASCII log format). -/
def pySpace (c : Char) : Bool :=
  c = ' ' || c = '\t' || c = '\n' || c = '\r' || c = '\x0b' || c = '\x0c'

/-- `str.strip()`: drop leading and trailing whitespace. -/
def pyStrip (s : List Char) : List Char :=
  ((s.dropWhile pySpace).reverse.dropWhile pySpace).reverse

/-- `str.startswith(p)` on the modelled string. -/
def pyStartswith (p s : List Char) : Bool :=
  p.isPrefixOf s

/-- Helper for `pySplit`: accumulate the current (reversed) token. -/
def pySplitAux : List Char → List Char → List (List Char)
  | [], acc => if acc.isEmpty then [] else [acc.reverse]
  | c :: cs, acc =>
      if pySpace c then
        if acc.isEmpty then pySplitAux cs [] else acc.reverse :: pySplitAux cs []
      else pySplitAux cs (c :: acc)

/-- `str.split()` with no argument: split on runs of whitespace,
discarding empty tokens. -/
def pySplit (s : List Char) : List (List Char) :=
  pySplitAux s []

/-- Digits (with CPython's single-underscore-between-digits rule) after
the first digit of an integer literal.  `acc` is the value read so far. -/
def pyDigitsAux : List Char → Nat → Option Nat
  | [], acc => some acc
  | c :: cs, acc =>
      if c.isDigit then pyDigitsAux cs (acc * 10 + (c.toNat - 48))
      else if c = '_' then
        match cs with
        | [] => none
        | d :: _ => if d.isDigit then pyDigitsAux cs acc else none
      else none

/-- Nonempty base-10 digit string (CPython underscore rule), as a `Nat`. -/
def pyDigits : List Char → Option Nat
  | [] => none
  | c :: cs => if c.isDigit then pyDigitsAux cs (c.toNat - 48) else none

/-- CPython `int(token)` in base 10: strip whitespace, optional sign,
nonempty digit string.  `none` models the `ValueError` raised on a
malformed literal. -/
def pyInt (tok : List Char) : Option Int :=
  match pyStrip tok with
  | '+' :: rest => (pyDigits rest).map (fun n => (n : Int))
  | '-' :: rest => (pyDigits rest).map (fun n => -(n : Int))
  | t => (pyDigits t).map (fun n => (n : Int))

/-! ## The parser (`parse_file`) -/

/-- The literal `"IN:"` tested by `line.startswith("IN:")`. -/
def inPre : List Char := ['I', 'N', ':']

/-- The literal `"MID:"` tested by `line.startswith("MID:")`. -/
def midPre : List Char := ['M', 'I', 'D', ':']

/-- The literal `"OUT:"` tested by `line.startswith("OUT:")`. -/
def outPre : List Char := ['O', 'U', 'T', ':']

/-- The three accumulated integer sequences `data_in`, `data_mid`,
`data_out` of `parse_file`. -/
structure Streams where
  data_in : List Int
  data_mid : List Int
  data_out : List Int
deriving Repr, DecidableEq

/-- `int(line.split()[-1])`: parse the last whitespace-separated token
of `line` as a base-10 integer.  `none` models the uncaught
`ValueError` (or, unreachable for a prefixed line, `IndexError`). -/
def lastIntToken (line : List Char) : Option Int :=
  match (pySplit line).getLast? with
  | none => none
  | some tok => pyInt tok

/-- One iteration of the `for line in f` loop of `parse_file`:
strip, classify by prefix (`if` / `elif` chain), parse and append.
`Except.error` models an uncaught parse exception, with the stripped
line as payload. -/
def stepLine (st : Streams) (raw : List Char) : Except (List Char) Streams :=
  let line := pyStrip raw
  if pyStartswith inPre line then
    match lastIntToken line with
    | some v => Except.ok { st with data_in := st.data_in ++ [v] }
    | none => Except.error line
  else if pyStartswith midPre line then
    match lastIntToken line with
    | some v => Except.ok { st with data_mid := st.data_mid ++ [v] }
    | none => Except.error line
  else if pyStartswith outPre line then
    match lastIntToken line with
    | some v => Except.ok { st with data_out := st.data_out ++ [v] }
    | none => Except.error line
  else Except.ok st

/-- The parsing loop of `parse_file`, threading the accumulated streams. -/
def parseLines : Streams → List (List Char) → Except (List Char) Streams
  | st, [] => Except.ok st
  | st, l :: ls =>
      match stepLine st l with
      | Except.ok st1 => parseLines st1 ls
      | Except.error e => Except.error e

/-- `parse_file` applied to the lines of an existing file: the loop
starting from three empty lists.  (The `FileNotFoundError` branch is
modelled in `mainRun` below, where the file system is visible.) -/
def parse_file (lines : List (List Char)) : Except (List Char) Streams :=
  parseLines ⟨[], [], []⟩ lines

/-- Spec-side description of one line's contribution to the stream with
literal `pre`: the integer parsed from the last whitespace-separated
token, provided the stripped line begins with `pre`; `none` otherwise. -/
def lineVal (pre : List Char) (raw : List Char) : Option Int :=
  if pyStartswith pre (pyStrip raw) then lastIntToken (pyStrip raw) else none

/-- A line that the `if`/`elif` chain classifies into one of the three
streams. -/
def isStreamLine (raw : List Char) : Bool :=
  pyStartswith inPre (pyStrip raw) || pyStartswith midPre (pyStrip raw) ||
    pyStartswith outPre (pyStrip raw)

/-! ## Parser lemmas -/

lemma pyStartswith_head (a : Char) (p s : List Char)
    (h : pyStartswith (a :: p) s = true) : s.head? = some a := by
  cases s with
  | nil => simp [pyStartswith, List.isPrefixOf] at h
  | cons b t =>
    simp only [pyStartswith, List.isPrefixOf, Bool.and_eq_true, beq_iff_eq] at h
    simp [h.1]

lemma excl_in_mid (s : List Char) (h : pyStartswith inPre s = true) :
    pyStartswith midPre s = false := by
  by_contra hc
  rw [Bool.not_eq_false] at hc
  have h1 := pyStartswith_head 'I' ['N', ':'] s h
  have h2 := pyStartswith_head 'M' ['I', 'D', ':'] s hc
  rw [h1] at h2
  exact absurd h2 (by decide)

lemma excl_in_out (s : List Char) (h : pyStartswith inPre s = true) :
    pyStartswith outPre s = false := by
  by_contra hc
  rw [Bool.not_eq_false] at hc
  have h1 := pyStartswith_head 'I' ['N', ':'] s h
  have h2 := pyStartswith_head 'O' ['U', 'T', ':'] s hc
  rw [h1] at h2
  exact absurd h2 (by decide)

lemma excl_mid_out (s : List Char) (h : pyStartswith midPre s = true) :
    pyStartswith outPre s = false := by
  by_contra hc
  rw [Bool.not_eq_false] at hc
  have h1 := pyStartswith_head 'M' ['I', 'D', ':'] s h
  have h2 := pyStartswith_head 'O' ['U', 'T', ':'] s hc
  rw [h1] at h2
  exact absurd h2 (by decide)

lemma stepLine_in (st : Streams) (l : List Char) (v : Int)
    (hin : pyStartswith inPre (pyStrip l) = true)
    (hv : lastIntToken (pyStrip l) = some v) :
    stepLine st l = Except.ok { st with data_in := st.data_in ++ [v] } := by
  simp [stepLine, hin, hv]

lemma stepLine_mid (st : Streams) (l : List Char) (v : Int)
    (hin : pyStartswith inPre (pyStrip l) = false)
    (hmid : pyStartswith midPre (pyStrip l) = true)
    (hv : lastIntToken (pyStrip l) = some v) :
    stepLine st l = Except.ok { st with data_mid := st.data_mid ++ [v] } := by
  simp [stepLine, hin, hmid, hv]

lemma stepLine_out (st : Streams) (l : List Char) (v : Int)
    (hin : pyStartswith inPre (pyStrip l) = false)
    (hmid : pyStartswith midPre (pyStrip l) = false)
    (hout : pyStartswith outPre (pyStrip l) = true)
    (hv : lastIntToken (pyStrip l) = some v) :
    stepLine st l = Except.ok { st with data_out := st.data_out ++ [v] } := by
  simp [stepLine, hin, hmid, hout, hv]

lemma stepLine_skip (st : Streams) (l : List Char)
    (hin : pyStartswith inPre (pyStrip l) = false)
    (hmid : pyStartswith midPre (pyStrip l) = false)
    (hout : pyStartswith outPre (pyStrip l) = false) :
    stepLine st l = Except.ok st := by
  simp [stepLine, hin, hmid, hout]

lemma stepLine_err (st : Streams) (l : List Char)
    (hline : isStreamLine l = true)
    (hv : lastIntToken (pyStrip l) = none) :
    stepLine st l = Except.error (pyStrip l) := by
  simp only [isStreamLine, Bool.or_eq_true] at hline
  rcases hline with (hin | hmid) | hout
  · simp [stepLine, hin, hv]
  · rcases hin' : pyStartswith inPre (pyStrip l) with _ | _
    · simp [stepLine, hin', hmid, hv]
    · simp [stepLine, hin', hv]
  · rcases hin' : pyStartswith inPre (pyStrip l) with _ | _
    · rcases hmid' : pyStartswith midPre (pyStrip l) with _ | _
      · simp [stepLine, hin', hmid', hout, hv]
      · simp [stepLine, hin', hmid', hv]
    · simp [stepLine, hin', hv]

lemma parseLines_cons_ok (st st1 : Streams) (l : List Char) (ls : List (List Char))
    (h : stepLine st l = Except.ok st1) :
    parseLines st (l :: ls) = parseLines st1 ls := by
  simp [parseLines, h]

lemma parseLines_cons_err (st : Streams) (e : List Char) (l : List Char)
    (ls : List (List Char)) (h : stepLine st l = Except.error e) :
    parseLines st (l :: ls) = Except.error e := by
  simp [parseLines, h]

lemma parseLines_ok_spec (lines : List (List Char)) : ∀ st st' : Streams,
    parseLines st lines = Except.ok st' →
    st'.data_in = st.data_in ++ lines.filterMap (lineVal inPre) ∧
    st'.data_mid = st.data_mid ++ lines.filterMap (lineVal midPre) ∧
    st'.data_out = st.data_out ++ lines.filterMap (lineVal outPre) ∧
    ∀ l ∈ lines, isStreamLine l = true → (lastIntToken (pyStrip l)).isSome = true := by
  induction lines with
  | nil =>
    intro st st' h
    simp only [parseLines, Except.ok.injEq] at h
    subst h
    simp
  | cons l ls ih =>
    intro st st' h
    by_cases hin : pyStartswith inPre (pyStrip l) = true
    · cases hlast : lastIntToken (pyStrip l) with
      | none =>
        rw [parseLines_cons_err st (pyStrip l) l ls
          (stepLine_err st l (by simp [isStreamLine, hin]) hlast)] at h
        exact absurd h (by simp)
      | some v =>
        rw [parseLines_cons_ok st _ l ls (stepLine_in st l v hin hlast)] at h
        obtain ⟨e1, e2, e3, e4⟩ := ih _ _ h
        refine ⟨?_, ?_, ?_, ?_⟩
        · rw [e1]
          simp [lineVal, hin, hlast]
        · rw [e2]
          simp [lineVal, excl_in_mid _ hin]
        · rw [e3]
          simp [lineVal, excl_in_out _ hin]
        · intro l' hl' hs
          rcases List.mem_cons.mp hl' with rfl | hl'
          · rw [hlast]
            rfl
          · exact e4 l' hl' hs
    · rw [Bool.not_eq_true] at hin
      by_cases hmid : pyStartswith midPre (pyStrip l) = true
      · cases hlast : lastIntToken (pyStrip l) with
        | none =>
          rw [parseLines_cons_err st (pyStrip l) l ls
            (stepLine_err st l (by simp [isStreamLine, hmid]) hlast)] at h
          exact absurd h (by simp)
        | some v =>
          rw [parseLines_cons_ok st _ l ls (stepLine_mid st l v hin hmid hlast)] at h
          obtain ⟨e1, e2, e3, e4⟩ := ih _ _ h
          refine ⟨?_, ?_, ?_, ?_⟩
          · rw [e1]
            simp [lineVal, hin]
          · rw [e2]
            simp [lineVal, hmid, hlast]
          · rw [e3]
            simp [lineVal, excl_mid_out _ hmid]
          · intro l' hl' hs
            rcases List.mem_cons.mp hl' with rfl | hl'
            · rw [hlast]
              rfl
            · exact e4 l' hl' hs
      · rw [Bool.not_eq_true] at hmid
        by_cases hout : pyStartswith outPre (pyStrip l) = true
        · cases hlast : lastIntToken (pyStrip l) with
          | none =>
            rw [parseLines_cons_err st (pyStrip l) l ls
              (stepLine_err st l (by simp [isStreamLine, hout]) hlast)] at h
            exact absurd h (by simp)
          | some v =>
            rw [parseLines_cons_ok st _ l ls (stepLine_out st l v hin hmid hout hlast)] at h
            obtain ⟨e1, e2, e3, e4⟩ := ih _ _ h
            refine ⟨?_, ?_, ?_, ?_⟩
            · rw [e1]
              simp [lineVal, hin]
            · rw [e2]
              simp [lineVal, hmid]
            · rw [e3]
              simp [lineVal, hout, hlast]
            · intro l' hl' hs
              rcases List.mem_cons.mp hl' with rfl | hl'
              · rw [hlast]
                rfl
              · exact e4 l' hl' hs
        · rw [Bool.not_eq_true] at hout
          rw [parseLines_cons_ok st st l ls (stepLine_skip st l hin hmid hout)] at h
          obtain ⟨e1, e2, e3, e4⟩ := ih _ _ h
          refine ⟨?_, ?_, ?_, ?_⟩
          · rw [e1]
            simp [lineVal, hin]
          · rw [e2]
            simp [lineVal, hmid]
          · rw [e3]
            simp [lineVal, hout]
          · intro l' hl' hs
            rcases List.mem_cons.mp hl' with rfl | hl'
            · rw [isStreamLine, hin, hmid, hout] at hs
              exact absurd hs (by simp)
            · exact e4 l' hl' hs

lemma filterMap_lineVal_length (pre : List Char) (lines : List (List Char))
    (hall : ∀ l ∈ lines, pyStartswith pre (pyStrip l) = true →
      (lastIntToken (pyStrip l)).isSome = true) :
    (lines.filterMap (lineVal pre)).length =
      lines.countP (fun l => pyStartswith pre (pyStrip l)) := by
  induction lines with
  | nil => simp
  | cons l ls ih =>
    have ihls := ih (fun l' hl' => hall l' (List.mem_cons_of_mem l hl'))
    simp only [List.filterMap_cons, List.countP_cons]
    by_cases hp : pyStartswith pre (pyStrip l) = true
    · have hs := hall l (List.mem_cons_self l ls) hp
      cases hlast : lastIntToken (pyStrip l) with
      | none => rw [hlast] at hs; exact absurd hs (by simp)
      | some v => simp [lineVal, hp, hlast, ihls]
    · rw [Bool.not_eq_true] at hp
      simp [lineVal, hp, ihls]

/-- C1: for every file whose parse succeeds, each of the three returned
integer sequences is exactly, in file order, the integer parsed from the
last whitespace-separated token of each stripped line beginning with the
corresponding literal (`IN:` / `MID:` / `OUT:`); no other line
contributes, and each stream's length equals the number of lines with
its literal.  Order preservation is the `filterMap` equality: the nth
element of the stream is the value of the nth matching line. -/
theorem parse_file_stream_spec (lines : List (List Char)) (st : Streams)
    (h : parse_file lines = Except.ok st) :
    st.data_in = lines.filterMap (lineVal inPre) ∧
    st.data_mid = lines.filterMap (lineVal midPre) ∧
    st.data_out = lines.filterMap (lineVal outPre) ∧
    st.data_in.length = lines.countP (fun l => pyStartswith inPre (pyStrip l)) ∧
    st.data_mid.length = lines.countP (fun l => pyStartswith midPre (pyStrip l)) ∧
    st.data_out.length = lines.countP (fun l => pyStartswith outPre (pyStrip l)) := by
  obtain ⟨e1, e2, e3, e4⟩ := parseLines_ok_spec lines ⟨[], [], []⟩ st h
  simp only [List.nil_append] at e1 e2 e3
  refine ⟨e1, e2, e3, ?_, ?_, ?_⟩
  · rw [e1]
    exact filterMap_lineVal_length inPre lines
      (fun l hl hp => e4 l hl (by simp [isStreamLine, hp]))
  · rw [e2]
    exact filterMap_lineVal_length midPre lines
      (fun l hl hp => e4 l hl (by simp [isStreamLine, hp]))
  · rw [e3]
    exact filterMap_lineVal_length outPre lines
      (fun l hl hp => e4 l hl (by simp [isStreamLine, hp]))

/-- Witness for C1 at the concrete file
`["IN: 7", "x 1", "MID: 8"]`, whose parse succeeds with streams
`[7] / [8] / []`. -/
theorem parse_file_stream_spec_witness :
    parse_file ["IN: 7".data, "x 1".data, "MID: 8".data] =
      Except.ok (Streams.mk [7] [8] []) ∧
    (([7] : List Int) =
      (["IN: 7".data, "x 1".data, "MID: 8".data]).filterMap (lineVal inPre) ∧
    ([8] : List Int) =
      (["IN: 7".data, "x 1".data, "MID: 8".data]).filterMap (lineVal midPre) ∧
    ([] : List Int) =
      (["IN: 7".data, "x 1".data, "MID: 8".data]).filterMap (lineVal outPre) ∧
    ([7] : List Int).length =
      (["IN: 7".data, "x 1".data, "MID: 8".data]).countP
        (fun l => pyStartswith inPre (pyStrip l)) ∧
    ([8] : List Int).length =
      (["IN: 7".data, "x 1".data, "MID: 8".data]).countP
        (fun l => pyStartswith midPre (pyStrip l)) ∧
    ([] : List Int).length =
      (["IN: 7".data, "x 1".data, "MID: 8".data]).countP
        (fun l => pyStartswith outPre (pyStrip l))) :=
  ⟨rfl, parse_file_stream_spec ["IN: 7".data, "x 1".data, "MID: 8".data]
    (Streams.mk [7] [8] []) rfl⟩

/-! ## Normalization and numpy primitives -/

/-- The element-wise division `raw / NORM_FACTOR` performed on each of
the three raw streams in the `__main__` block. -/
noncomputable def normalizeSig (raw : List Int) : List ℝ :=
  raw.map (fun v => (v : ℝ) / NORM_FACTOR)

/-- `np.hamming(n)`: the Hamming window
`0.54 - 0.46*cos(2*pi*k/(n-1))`, `k = 0..n-1`; numpy returns `[1.]`
for `n = 1` (and the empty array for `n = 0`). -/
noncomputable def np_hamming (n : ℕ) : List ℝ :=
  if n = 1 then [1]
  else (List.range n).map
    (fun (k : ℕ) => 0.54 - 0.46 * Real.cos (2 * Real.pi * (k : ℝ) / ((n : ℝ) - 1)))

/-- The discrete Fourier transform computed by `np.fft.fft`:
`X[k] = sum_m x[m] * exp(-2*pi*i*m*k/n)`. -/
noncomputable def dft (x : List ℝ) : List ℂ :=
  (List.range x.length).map (fun (k : ℕ) =>
    ∑ m ∈ Finset.range x.length,
      ((x.getD m 0 : ℝ) : ℂ) *
        Complex.exp (-(2 * (Real.pi : ℂ) * Complex.I * (m : ℂ) * (k : ℂ)) /
          ((x.length : ℕ) : ℂ)))

/-- `np.fft.fft(x)`: `none` models the `ValueError` numpy raises for
zero data points (`np.fft.fft` of an empty array). -/
noncomputable def np_fft (x : List ℝ) : Option (List ℂ) :=
  if x.length = 0 then none else some (dft x)

/-- `np.fft.fftfreq(n, d)`: the nonnegative bins `k/(d*n)` for
`k = 0..(n-1)/2`, then the negative bins `(k - n/2)/(d*n)` for
`k = 0..n/2-1` (numpy's `arange(-(n//2), 0)`).  numpy's Python floor
division gives the empty array at `n = 0`, which the guard reproduces. -/
noncomputable def np_fftfreq (n : ℕ) (d : ℝ) : List ℝ :=
  if n = 0 then []
  else
    ((List.range ((n - 1) / 2 + 1)).map (fun (k : ℕ) => (k : ℝ) / (d * n))) ++
    ((List.range (n / 2)).map (fun (k : ℕ) => ((k : ℝ) - ((n / 2 : ℕ) : ℝ)) / (d * n)))

/-- `np.max`: `none` models the `ValueError` raised on an empty array
(zero-size array reduction); otherwise the maximum element. -/
noncomputable def np_max : List ℝ → Option ℝ
  | [] => none
  | x :: xs => some (xs.foldl max x)

/-- The magnitude half of `get_fft_db`: window, FFT, keep the first
`n // 2` bins, and take `20*log10(|X| + 1e-12)` per bin. -/
noncomputable def fftMag (sig : List ℝ) : List ℝ :=
  ((dft (List.zipWith (fun a b => a * b) sig (np_hamming sig.length))).take
      (sig.length / 2)).map
    (fun x => 20 * Real.logb 10 (Complex.abs x + 1e-12))

/-- `get_fft_db(sig, fs)` from `plot_frequency_domain`: Hamming window
of the signal's length, FFT of the windowed signal, `fftfreq` bins for
sample spacing `1/fs`, both truncated to the first `len(sig) // 2`
entries, magnitudes in dB as `20*log10(|X| + 1e-12)`. -/
noncomputable def get_fft_db (sig : List ℝ) (fs : ℝ) : Option (List ℝ × List ℝ) :=
  match np_fft (List.zipWith (fun a b => a * b) sig (np_hamming sig.length)) with
  | none => none
  | some fft_val =>
      some ((np_fftfreq sig.length (1 / fs)).take (sig.length / 2),
            (fft_val.take (sig.length / 2)).map
              (fun x => 20 * Real.logb 10 (Complex.abs x + 1e-12)))

/-! ## The plotters and the entry point -/

/-- The data plotted by the three panels of the frequency-domain
figure: per panel, the x data (`f/1e6`, MHz) and the y data
(`mag - ref_level`, dB relative to the input peak). -/
structure FreqPlot where
  panelIn : List ℝ × List ℝ
  panelMid : List ℝ × List ℝ
  panelOut : List ℝ × List ℝ

/-- `plot_frequency_domain(sig_in, sig_mid, sig_out)`: the three FFTs,
the shared reference level `ref_level = np.max(mag_in)`, and the three
panels with `ref_level` subtracted from every dB value.  `none` models
an uncaught numpy exception (empty FFT input or empty `np.max`). -/
noncomputable def plot_frequency_domain (sig_in sig_mid sig_out : List ℝ) :
    Option FreqPlot :=
  match get_fft_db sig_in FS_IN with
  | none => none
  | some (f_in, mag_in) =>
    match get_fft_db sig_mid FS_MID with
    | none => none
    | some (f_mid, mag_mid) =>
      match get_fft_db sig_out FS_OUT with
      | none => none
      | some (f_out, mag_out) =>
        match np_max mag_in with
        | none => none
        | some ref_level =>
          some ⟨(f_in.map (fun v => v / 1e6), mag_in.map (fun v => v - ref_level)),
                (f_mid.map (fun v => v / 1e6), mag_mid.map (fun v => v - ref_level)),
                (f_out.map (fun v => v / 1e6), mag_out.map (fun v => v - ref_level))⟩

/-- How the modelled process run ended: fell off the end of the script
(exit status 0), a bare `exit()` call (`SystemExit(None)`, which CPython
turns into exit status 0), or an uncaught exception (CPython prints a
traceback and exits with status 1). -/
inductive ExitKind where
  | normal : ExitKind
  | sysExit : ℕ → ExitKind
  | crashed : ExitKind
deriving Repr, DecidableEq

/-- The process exit status of each `ExitKind`. -/
def exitCode : ExitKind → ℕ
  | ExitKind.normal => 0
  | ExitKind.sysExit c => c
  | ExitKind.crashed => 1

/-- Observable trace of one run of the script: the lines printed to
standard output, the arguments of the `plot_time_domain` and
`plot_frequency_domain` calls (if reached), and how the process ended. -/
structure RunTrace where
  printed : List String
  timePlotArgs : Option (List ℝ × List ℝ × List ℝ)
  freqPlotArgs : Option (List ℝ × List ℝ × List ℝ)
  outcome : ExitKind

/-- `print(f"Reading {filename}...")` at the top of `parse_file`. -/
def readingMsg : String := "Reading " ++ FILENAME ++ "..."

/-- The diagnostic printed by the `FileNotFoundError` handler. -/
def missingMsg : String := "Error: Could not find " ++ FILENAME ++ ". Run the simulation first."

/-- `print(f"Samples Read -> In: .., Mid: .., Out: ..")`. -/
def countsMsg (a b c : ℕ) : String :=
  "Samples Read -> In: " ++ toString a ++ ", Mid: " ++ toString b ++ ", Out: " ++ toString c

/-- `print(f"Normalizing all signals by Fixed Factor: 30000.0")`. -/
def normMsg : String := "Normalizing all signals by Fixed Factor: 30000.0"

/-- The `__main__` block.  `none` is a missing input file: `parse_file`
prints the diagnostic and calls bare `exit()` — `SystemExit(None)`,
exit status 0.  A parse error is an uncaught `ValueError`
(`ExitKind.crashed`).  Otherwise the counts line is printed and, only
when `len(s_in_raw) > 0`, the three streams are normalized and the two
plotters are invoked — `plot_time_domain` on the `[:200]`, `[:400]`,
`[:150]` prefixes and `plot_frequency_domain` on the full signals; a
numpy failure inside the latter crashes the process. -/
noncomputable def mainRun (file : Option (List (List Char))) : RunTrace :=
  match file with
  | none => ⟨[readingMsg, missingMsg], none, none, ExitKind.sysExit 0⟩
  | some lines =>
    match parse_file lines with
    | Except.error _ => ⟨[readingMsg], none, none, ExitKind.crashed⟩
    | Except.ok st =>
      let countsLine := countsMsg st.data_in.length st.data_mid.length st.data_out.length
      if st.data_in.length > 0 then
        let s_in := normalizeSig st.data_in
        let s_mid := normalizeSig st.data_mid
        let s_out := normalizeSig st.data_out
        { printed := [readingMsg, countsLine, normMsg]
          timePlotArgs := some (s_in.take 200, s_mid.take 400, s_out.take 150)
          freqPlotArgs := some (s_in, s_mid, s_out)
          outcome :=
            match plot_frequency_domain s_in s_mid s_out with
            | some _ => ExitKind.normal
            | none => ExitKind.crashed }
      else ⟨[readingMsg, countsLine], none, none, ExitKind.normal⟩

/-! ## Spectrum lemmas -/

lemma np_hamming_length (n : ℕ) : (np_hamming n).length = n := by
  by_cases h1 : n = 1
  · simp [np_hamming, h1]
  · rw [np_hamming, if_neg h1, List.length_map, List.length_range]

lemma dft_length (x : List ℝ) : (dft x).length = x.length := by
  rw [dft, List.length_map, List.length_range]

lemma windowed_length (sig : List ℝ) :
    (List.zipWith (fun a b => a * b) sig (np_hamming sig.length)).length =
      sig.length := by
  rw [List.length_zipWith, np_hamming_length, Nat.min_self]

lemma np_fftfreq_length (n : ℕ) (d : ℝ) : (np_fftfreq n d).length = n := by
  by_cases h0 : n = 0
  · simp [np_fftfreq, h0]
  · rw [np_fftfreq, if_neg h0, List.length_append, List.length_map, List.length_map,
      List.length_range, List.length_range]
    omega

lemma fftMag_length (sig : List ℝ) : (fftMag sig).length = sig.length / 2 := by
  rw [fftMag, List.length_map, List.length_take, dft_length, windowed_length]
  exact Nat.min_eq_left (Nat.div_le_self _ _)

lemma np_fft_eq (x : List ℝ) (h : x.length ≠ 0) : np_fft x = some (dft x) := by
  rw [np_fft, if_neg h]

lemma get_fft_db_eq (sig : List ℝ) (fs : ℝ) (h : 1 ≤ sig.length) :
    get_fft_db sig fs =
      some ((np_fftfreq sig.length (1 / fs)).take (sig.length / 2), fftMag sig) := by
  have hne : (List.zipWith (fun a b => a * b) sig (np_hamming sig.length)).length ≠ 0 := by
    rw [windowed_length]
    omega
  rw [get_fft_db, np_fft_eq _ hne]
  rfl

lemma get_fft_db_freq_length (sig : List ℝ) (fs : ℝ) :
    ((np_fftfreq sig.length (1 / fs)).take (sig.length / 2)).length =
      sig.length / 2 := by
  rw [List.length_take, np_fftfreq_length]
  exact Nat.min_eq_left (Nat.div_le_self _ _)

lemma foldl_max_sub (xs : List ℝ) (x r : ℝ) :
    (xs.map (fun v => v - r)).foldl max (x - r) = xs.foldl max x - r := by
  induction xs generalizing x with
  | nil => rfl
  | cons a t ih =>
    simp only [List.map_cons, List.foldl_cons]
    rw [max_sub_sub_right x a r]
    exact ih (max x a)

lemma np_max_map_sub_self (l : List ℝ) (r : ℝ) (h : np_max l = some r) :
    np_max (l.map (fun v => v - r)) = some 0 := by
  cases l with
  | nil => exact absurd h (by simp [np_max])
  | cons x xs =>
    simp only [np_max, Option.some.injEq] at h
    simp only [List.map_cons, np_max, Option.some.injEq, foldl_max_sub, h]
    exact sub_self r

/-! ## Entry-point lemmas -/

lemma mainRun_plot_args (lines : List (List Char)) (st : Streams)
    (h : parse_file lines = Except.ok st) (hpos : 0 < st.data_in.length) :
    mainRun (some lines) =
      { printed := [readingMsg,
          countsMsg st.data_in.length st.data_mid.length st.data_out.length, normMsg]
        timePlotArgs := some ((normalizeSig st.data_in).take 200,
          (normalizeSig st.data_mid).take 400, (normalizeSig st.data_out).take 150)
        freqPlotArgs := some (normalizeSig st.data_in, normalizeSig st.data_mid,
          normalizeSig st.data_out)
        outcome :=
          match plot_frequency_domain (normalizeSig st.data_in)
              (normalizeSig st.data_mid) (normalizeSig st.data_out) with
          | some _ => ExitKind.normal
          | none => ExitKind.crashed } := by
  simp only [mainRun, h, hpos, if_true, gt_iff_lt]

lemma mainRun_skip (lines : List (List Char)) (st : Streams)
    (h : parse_file lines = Except.ok st) (hemp : st.data_in = []) :
    mainRun (some lines) =
      ⟨[readingMsg, countsMsg 0 st.data_mid.length st.data_out.length],
       none, none, ExitKind.normal⟩ := by
  simp only [mainRun, h, hemp, List.length_nil, gt_iff_lt, lt_self_iff_false, if_false]

lemma mainRun_parse_error (lines : List (List Char)) (e : List Char)
    (h : parse_file lines = Except.error e) :
    mainRun (some lines) = ⟨[readingMsg], none, none, ExitKind.crashed⟩ := by
  simp only [mainRun, h]

lemma parseLines_error_of_bad (lines : List (List Char)) : ∀ (st : Streams)
    (raw : List Char), raw ∈ lines → isStreamLine raw = true →
    lastIntToken (pyStrip raw) = none →
    ∃ e, parseLines st lines = Except.error e := by
  induction lines with
  | nil =>
    intro st raw hmem _ _
    exact absurd hmem (List.not_mem_nil raw)
  | cons l ls ih =>
    intro st raw hmem hline hnone
    rcases List.mem_cons.mp hmem with rfl | hmem'
    · exact ⟨pyStrip raw,
        parseLines_cons_err st (pyStrip raw) raw ls (stepLine_err st raw hline hnone)⟩
    · cases hstep : stepLine st l with
      | error e => exact ⟨e, parseLines_cons_err st e l ls hstep⟩
      | ok st1 =>
        obtain ⟨e, he⟩ := ih st1 raw hmem' hline hnone
        refine ⟨e, ?_⟩
        rw [parseLines_cons_ok st st1 l ls hstep]
        exact he

/-- C2 counterexample: on a missing input file `parse_file` calls the
bare `exit()`, which raises `SystemExit(None)`; CPython maps that to
process exit status 0 — not the non-zero exit the claim asserts. -/
theorem missing_file_exit_code_zero : exitCode (mainRun none).outcome = 0 := rfl

/-- C2 (amended): on a missing input file the program prints a
diagnostic mentioning the filename and terminates immediately via
`exit()` (`SystemExit`, exit status 0), before any plotting call is
reached. -/
theorem missing_file_reports_and_quits :
    mainRun none = ⟨[readingMsg, missingMsg], none, none, ExitKind.sysExit 0⟩ ∧
    FILENAME.data <:+: missingMsg.data := by
  refine ⟨rfl, "Error: Could not find ".data, ". Run the simulation first.".data, ?_⟩
  decide

/-- C3: plotting is gated solely on the input stream.  Whenever the
parse succeeds with an empty `data_in` (whatever `data_mid` and
`data_out` hold), no plotter is invoked and the process exits normally
after printing the counts line; for the empty file all three streams
are empty and the printed counts are 0, 0, 0. -/
theorem empty_input_skips_plot_calls :
    (∀ lines st, parse_file lines = Except.ok st → st.data_in = [] →
       mainRun (some lines) =
         ⟨[readingMsg, countsMsg 0 st.data_mid.length st.data_out.length],
          none, none, ExitKind.normal⟩) ∧
    parse_file [] = Except.ok ⟨[], [], []⟩ ∧
    mainRun (some []) = ⟨[readingMsg, countsMsg 0 0 0], none, none, ExitKind.normal⟩ ∧
    countsMsg 0 0 0 = "Samples Read -> In: 0, Mid: 0, Out: 0" := by
  refine ⟨?_, rfl, ?_, by decide⟩
  · intro lines st h hemp
    have := mainRun_skip lines st h hemp
    rw [this]
  · exact mainRun_skip [] ⟨[], [], []⟩ rfl rfl

/-- Witness for C3: a file with one `MID:` line and no `IN:` line —
the intermediate stream is non-empty, yet no plotter is called and the
run ends normally. -/
theorem empty_input_skips_plot_calls_witness :
    mainRun (some ["MID: 4".data]) =
      ⟨[readingMsg, countsMsg 0 1 0], none, none, ExitKind.normal⟩ :=
  empty_input_skips_plot_calls.1 ["MID: 4".data] ⟨[], [4], []⟩ rfl rfl

/-- C7: a stripped line that begins with one of the three stream
literals but whose last whitespace-separated token is not a valid
base-10 integer makes `parse_file` raise; the only handler in the
script catches `FileNotFoundError`, so the error propagates and the
process dies abnormally (traceback, exit status 1), with no counts
printed and no plotter reached. -/
theorem malformed_token_crashes :
    (∀ lines raw, raw ∈ lines → isStreamLine raw = true →
       lastIntToken (pyStrip raw) = none →
       ∃ e, parse_file lines = Except.error e) ∧
    (∀ lines e, parse_file lines = Except.error e →
       mainRun (some lines) = ⟨[readingMsg], none, none, ExitKind.crashed⟩ ∧
       exitCode (mainRun (some lines)).outcome = 1) := by
  constructor
  · intro lines raw hmem hline hnone
    exact parseLines_error_of_bad lines ⟨[], [], []⟩ raw hmem hline hnone
  · intro lines e h
    rw [mainRun_parse_error lines e h]
    exact ⟨rfl, rfl⟩

/-- Witness for C7 at the concrete file `["IN: oops"]`. -/
theorem malformed_token_crashes_witness :
    mainRun (some ["IN: oops".data]) = ⟨[readingMsg], none, none, ExitKind.crashed⟩ := by
  obtain ⟨e, he⟩ := malformed_token_crashes.1 ["IN: oops".data] "IN: oops".data
    (by simp) (by decide) (by decide)
  exact (malformed_token_crashes.2 ["IN: oops".data] e he).1

/-- C9: when the input stream is non-empty, `plot_time_domain` receives
the `[:200]`, `[:400]`, `[:150]` prefixes of the three normalized
streams and `plot_frequency_domain` receives the full untruncated
normalized streams. -/
theorem plot_invocation_truncation (lines : List (List Char)) (st : Streams)
    (h : parse_file lines = Except.ok st) (hpos : 0 < st.data_in.length) :
    (mainRun (some lines)).timePlotArgs =
      some ((normalizeSig st.data_in).take 200, (normalizeSig st.data_mid).take 400,
        (normalizeSig st.data_out).take 150) ∧
    (mainRun (some lines)).freqPlotArgs =
      some (normalizeSig st.data_in, normalizeSig st.data_mid,
        normalizeSig st.data_out) := by
  rw [mainRun_plot_args lines st h hpos]
  exact ⟨rfl, rfl⟩

/-- Witness for C9 at the concrete file `["IN: 1"]`. -/
theorem plot_invocation_truncation_witness :
    (mainRun (some ["IN: 1".data])).timePlotArgs =
      some ((normalizeSig [1]).take 200, (normalizeSig []).take 400,
        (normalizeSig []).take 150) ∧
    (mainRun (some ["IN: 1".data])).freqPlotArgs =
      some (normalizeSig [1], normalizeSig [], normalizeSig []) :=
  plot_invocation_truncation ["IN: 1".data] ⟨[1], [], []⟩ rfl (by decide)

/-- C8: end-to-end scenario 1 — the four-line file parses to the three
streams `[15000, -15000]`, `[30000]`, `[0]`, and the fixed
normalization maps them to `[0.5, -0.5]`, `[1.0]`, `[0.0]`. -/
theorem scenario1_end_to_end :
    parse_file ["IN: 15000".data, "IN: -15000".data, "MID: 30000".data,
        "OUT: 0".data] =
      Except.ok ⟨[15000, -15000], [30000], [0]⟩ ∧
    normalizeSig [15000, -15000] = [0.5, -0.5] ∧
    normalizeSig [30000] = [1.0] ∧
    normalizeSig [0] = [0.0] := by
  refine ⟨rfl, ?_, ?_, ?_⟩ <;>
    · simp only [normalizeSig, NORM_FACTOR, List.map_cons, List.map_nil]
      norm_num

/-- C6: normalization divides element-wise by the fixed scalar
`NORM_FACTOR = 30000.0`; the same `raw / NORM_FACTOR` is applied to all
three streams (the entry point hands `normalizeSig` of each raw stream
to the plotters), and it is invertible: pairing each normalized sample
with its raw sample, `normalized * 30000.0 = raw` (exactly, over ℝ). -/
theorem normalize_elementwise_invertible :
    (∀ raw : List Int,
      List.Forall₂ (fun x v => x * NORM_FACTOR = ((v : ℤ) : ℝ))
        (normalizeSig raw) raw) ∧
    (∀ lines st, parse_file lines = Except.ok st → 0 < st.data_in.length →
      (mainRun (some lines)).freqPlotArgs =
        some (normalizeSig st.data_in, normalizeSig st.data_mid,
          normalizeSig st.data_out)) := by
  constructor
  · intro raw
    induction raw with
    | nil => simp [normalizeSig]
    | cons a t ih =>
      simp only [normalizeSig, List.map_cons]
      refine List.Forall₂.cons ?_ ih
      rw [div_mul_cancel₀]
      norm_num [NORM_FACTOR]
  · intro lines st h hpos
    rw [mainRun_plot_args lines st h hpos]

/-- Witness for C6 at the raw stream `[15000]` and the concrete file
`["OUT: 2", "IN: 3"]`. -/
theorem normalize_elementwise_invertible_witness :
    List.Forall₂ (fun x v => x * NORM_FACTOR = ((v : ℤ) : ℝ))
      (normalizeSig [15000]) [15000] ∧
    (mainRun (some ["OUT: 2".data, "IN: 3".data])).freqPlotArgs =
      some (normalizeSig [3], normalizeSig [], normalizeSig [2]) :=
  ⟨normalize_elementwise_invertible.1 [15000],
   normalize_elementwise_invertible.2 ["OUT: 2".data, "IN: 3".data] ⟨[3], [], [2]⟩
     rfl (by decide)⟩

/-- C4 counterexample: for the empty signal (length 0, reachable since
the entry point gates only on the input stream, while `s_mid` / `s_out`
may be empty), `get_fft_db` does not return the promised length-`0//2`
arrays: `np.fft.fft` raises `ValueError` on zero data points, so
nothing is returned at all. -/
theorem get_fft_db_empty_fails :
    ¬ ∃ p, get_fft_db ([] : List ℝ) FS_IN = some p := by
  simp [get_fft_db, np_fft, np_hamming]

/-- C4 (amended to nonempty signals): for every normalized signal of
length `n ≥ 1` and sample rate `fs`, `get_fft_db` applies a Hamming
window of length `n`, takes the FFT of the windowed signal, keeps the
first `n // 2` bins of the `fftfreq` and magnitude arrays, computes
each magnitude as `20*log10(|X| + 1e-12)`, and both returned arrays
have length exactly `n // 2`. -/
theorem get_fft_db_halfspectrum (sig : List ℝ) (fs : ℝ) (h : 1 ≤ sig.length) :
    (np_hamming sig.length).length = sig.length ∧
    get_fft_db sig fs =
      some ((np_fftfreq sig.length (1 / fs)).take (sig.length / 2), fftMag sig) ∧
    ((np_fftfreq sig.length (1 / fs)).take (sig.length / 2)).length =
      sig.length / 2 ∧
    (fftMag sig).length = sig.length / 2 :=
  ⟨np_hamming_length _, get_fft_db_eq sig fs h, get_fft_db_freq_length sig fs,
   fftMag_length sig⟩

/-- Witness for C4 at the concrete signal `[1, 2]`. -/
theorem get_fft_db_halfspectrum_witness :
    1 ≤ List.length [(1 : ℝ), 2] ∧
    ((np_hamming (List.length [(1 : ℝ), 2])).length = List.length [(1 : ℝ), 2] ∧
     get_fft_db [(1 : ℝ), 2] FS_IN =
       some ((np_fftfreq (List.length [(1 : ℝ), 2]) (1 / FS_IN)).take
           (List.length [(1 : ℝ), 2] / 2), fftMag [(1 : ℝ), 2]) ∧
     ((np_fftfreq (List.length [(1 : ℝ), 2]) (1 / FS_IN)).take
         (List.length [(1 : ℝ), 2] / 2)).length = List.length [(1 : ℝ), 2] / 2 ∧
     (fftMag [(1 : ℝ), 2]).length = List.length [(1 : ℝ), 2] / 2) :=
  ⟨by decide, get_fft_db_halfspectrum [(1 : ℝ), 2] FS_IN (by decide)⟩

/-- C5: whenever the frequency-domain plotter completes (input at least
2 samples so its half-spectrum is non-empty, intermediate and output
non-empty so their FFTs are defined), the single reference level is
`np.max` of the input spectrum's dB magnitudes, that same constant is
subtracted from the dB values of all three streams, and the maximum of
the input stream's relative magnitudes is exactly 0. -/
theorem freq_plot_reference_level (a b c : List ℝ)
    (ha : 2 ≤ a.length) (hb : 1 ≤ b.length) (hc : 1 ≤ c.length) :
    ∃ r fp, np_max (fftMag a) = some r ∧
      plot_frequency_domain a b c = some fp ∧
      fp.panelIn.2 = (fftMag a).map (fun v => v - r) ∧
      fp.panelMid.2 = (fftMag b).map (fun v => v - r) ∧
      fp.panelOut.2 = (fftMag c).map (fun v => v - r) ∧
      np_max fp.panelIn.2 = some 0 := by
  have e_in := get_fft_db_eq a FS_IN (by omega)
  have e_mid := get_fft_db_eq b FS_MID hb
  have e_out := get_fft_db_eq c FS_OUT hc
  have hne : fftMag a ≠ [] := by
    rw [← List.length_pos, fftMag_length]
    omega
  obtain ⟨x, xs, hm⟩ := List.exists_cons_of_ne_nil hne
  have hmax : np_max (fftMag a) = some (xs.foldl max x) := by
    rw [hm]
    rfl
  refine ⟨xs.foldl max x,
      ⟨(((np_fftfreq a.length (1 / FS_IN)).take (a.length / 2)).map
          (fun v => v / 1e6),
        (fftMag a).map (fun v => v - xs.foldl max x)),
       (((np_fftfreq b.length (1 / FS_MID)).take (b.length / 2)).map
          (fun v => v / 1e6),
        (fftMag b).map (fun v => v - xs.foldl max x)),
       (((np_fftfreq c.length (1 / FS_OUT)).take (c.length / 2)).map
          (fun v => v / 1e6),
        (fftMag c).map (fun v => v - xs.foldl max x))⟩,
      hmax, ?_, rfl, rfl, rfl, ?_⟩
  · simp only [plot_frequency_domain, e_in, e_mid, e_out, hmax]
  · exact np_max_map_sub_self (fftMag a) (xs.foldl max x) hmax

/-- Witness for C5 at the concrete signals `[1, 0]`, `[1]`, `[1]`. -/
theorem freq_plot_reference_level_witness :
    2 ≤ List.length [(1 : ℝ), 0] ∧
    (∃ r fp, np_max (fftMag [(1 : ℝ), 0]) = some r ∧
      plot_frequency_domain [(1 : ℝ), 0] [(1 : ℝ)] [(1 : ℝ)] = some fp ∧
      fp.panelIn.2 = (fftMag [(1 : ℝ), 0]).map (fun v => v - r) ∧
      fp.panelMid.2 = (fftMag [(1 : ℝ)]).map (fun v => v - r) ∧
      fp.panelOut.2 = (fftMag [(1 : ℝ)]).map (fun v => v - r) ∧
      np_max fp.panelIn.2 = some 0) :=
  ⟨by decide, freq_plot_reference_level [(1 : ℝ), 0] [(1 : ℝ)] [(1 : ℝ)]
    (by decide) (by decide) (by decide)⟩

/-- C10: the input stream's half-spectrum has `len(input) // 2`
magnitudes, so the reference-level `np.max` is over an empty array as
soon as the input has exactly one sample: the frequency-domain plotter
fails on `len(input) = 1` (which passes the `len > 0` gate of the entry
point) and succeeds for `len(input) ≥ 2` — the pipeline's real
precondition is `len(input) ≥ 2`. -/
theorem freq_plot_requires_two_samples (sig_in sig_mid sig_out : List ℝ)
    (hmid : 1 ≤ sig_mid.length) (hout : 1 ≤ sig_out.length) :
    (fftMag sig_in).length = sig_in.length / 2 ∧
    (sig_in.length = 1 → plot_frequency_domain sig_in sig_mid sig_out = none) ∧
    (2 ≤ sig_in.length →
      ∃ fp, plot_frequency_domain sig_in sig_mid sig_out = some fp) := by
  have e_mid := get_fft_db_eq sig_mid FS_MID hmid
  have e_out := get_fft_db_eq sig_out FS_OUT hout
  refine ⟨fftMag_length sig_in, ?_, ?_⟩
  · intro h1
    have e_in := get_fft_db_eq sig_in FS_IN (by omega)
    have hmag : fftMag sig_in = [] := by
      have hl := fftMag_length sig_in
      rw [h1] at hl
      refine List.length_eq_zero.mp ?_
      omega
    simp only [plot_frequency_domain, e_in, e_mid, e_out, hmag, np_max]
  · intro h2
    have e_in := get_fft_db_eq sig_in FS_IN (by omega)
    have hne : fftMag sig_in ≠ [] := by
      rw [← List.length_pos, fftMag_length]
      omega
    obtain ⟨x, xs, hm⟩ := List.exists_cons_of_ne_nil hne
    have hmax : np_max (fftMag sig_in) = some (xs.foldl max x) := by
      rw [hm]
      rfl
    refine ⟨⟨(((np_fftfreq sig_in.length (1 / FS_IN)).take
            (sig_in.length / 2)).map (fun v => v / 1e6),
          (fftMag sig_in).map (fun v => v - xs.foldl max x)),
         (((np_fftfreq sig_mid.length (1 / FS_MID)).take
            (sig_mid.length / 2)).map (fun v => v / 1e6),
          (fftMag sig_mid).map (fun v => v - xs.foldl max x)),
         (((np_fftfreq sig_out.length (1 / FS_OUT)).take
            (sig_out.length / 2)).map (fun v => v / 1e6),
          (fftMag sig_out).map (fun v => v - xs.foldl max x))⟩, ?_⟩
    simp only [plot_frequency_domain, e_in, e_mid, e_out, hmax]

/-- Witness for C10 at the concrete signals `[1]`, `[1]`, `[1]` (the
failing one-sample input) — the hypotheses hold and the conclusion
instantiates. -/
theorem freq_plot_requires_two_samples_witness :
    1 ≤ List.length [(1 : ℝ)] ∧
    ((fftMag [(1 : ℝ)]).length = List.length [(1 : ℝ)] / 2 ∧
     (List.length [(1 : ℝ)] = 1 →
       plot_frequency_domain [(1 : ℝ)] [(1 : ℝ)] [(1 : ℝ)] = none) ∧
     (2 ≤ List.length [(1 : ℝ)] →
       ∃ fp, plot_frequency_domain [(1 : ℝ)] [(1 : ℝ)] [(1 : ℝ)] = some fp)) :=
  ⟨by decide, freq_plot_requires_two_samples [(1 : ℝ)] [(1 : ℝ)] [(1 : ℝ)]
    (by decide) (by decide)⟩
